import Mathlib

/-!
Verification of `plots.py` (seq2par2): shallow embedding of the script's
data model and control flow, and proofs of the specified properties.

The script loads `complete_performance_report.csv` into a pandas DataFrame,
renders two line charts from the loaded columns, then appends three derived
ratio columns and renders a grouped bar chart.  We embed the DataFrame as an
ordered association list from column name to a sequence of numeric values,
numeric values as rationals extended with the IEEE special values that numpy
float division can produce, and the script itself as a function from the
input file to a trace of effects (file writes, the derived-column mutation)
together with an optional fatal error.
-/

/-- A numeric cell value: a finite rational, or one of the non-finite values
(positive infinity, negative infinity, NaN) that numpy float division can
produce.  CSV parsing only yields finite values. -/
inductive PVal where
  | finite : ℚ → PVal
  | inf : PVal
  | negInf : PVal
  | nan : PVal
deriving DecidableEq

/-- Whether a value is finite. -/
def PVal.isFinite : PVal → Bool
  | .finite _ => true
  | _ => false

/-- Elementwise division as performed by numpy float division (`Series / Series`
in `plots.py` lines 41-42): finite by nonzero finite is exact division; a
nonzero finite numerator over zero gives a signed infinity; zero over zero
gives NaN; no exception is ever raised. -/
def PVal.div : PVal → PVal → PVal
  | .finite a, .finite b =>
      if b = 0 then (if a = 0 then .nan else if 0 < a then .inf else .negInf)
      else .finite (a / b)
  | .finite _, .inf => .finite 0
  | .finite _, .negInf => .finite 0
  | .inf, .finite b => if 0 ≤ b then .inf else .negInf
  | .negInf, .finite b => if 0 ≤ b then .negInf else .inf
  | _, _ => .nan

/-- The in-memory Performance Table: an ordered list of named columns,
each an ordered sequence of values (pandas DataFrame as used by the script). -/
structure DataFrame where
  cols : List (String × List PVal)
deriving DecidableEq

/-- Column lookup by name, first match (pandas `df[name]`; `none` models the
`KeyError` raised on a missing column). -/
def getColAux : List (String × List PVal) → String → Option (List PVal)
  | [], _ => none
  | c :: cs, n => if c.1 = n then some c.2 else getColAux cs n

/-- `df[name]` read access. -/
def DataFrame.getCol (df : DataFrame) (n : String) : Option (List PVal) :=
  getColAux df.cols n

/-- Column assignment: replace the column if the name exists, append it at the
end otherwise (pandas `df[name] = series`). -/
def setColAux : List (String × List PVal) → String → List PVal →
    List (String × List PVal)
  | [], n, v => [(n, v)]
  | c :: cs, n, v => if c.1 = n then (n, v) :: cs else c :: setColAux cs n v

/-- `df[name] = series` write access. -/
def DataFrame.setCol (df : DataFrame) (n : String) (v : List PVal) : DataFrame :=
  ⟨setColAux df.cols n v⟩

/-- Row count of the table (pandas `len(df)`): the length of the first column. -/
def DataFrame.length (df : DataFrame) : Nat :=
  match df.cols with
  | [] => 0
  | c :: _ => c.2.length

/-- Table invariant: every column has exactly one entry per row. -/
def DataFrame.wf (df : DataFrame) : Prop :=
  ∀ p ∈ df.cols, p.2.length = df.length

instance (df : DataFrame) : Decidable df.wf := by
  unfold DataFrame.wf; infer_instance

/-- An input CSV file, already tokenised: a header line of column names and
the data lines, each a sequence of numeric fields. -/
structure CsvFile where
  header : List String
  dataLines : List (List ℚ)
deriving DecidableEq

/-- `pd.read_csv` (line 6 of `plots.py`) on a numeric CSV: fails if there are
no columns to parse or if some data line's field count does not match the
header; otherwise builds one column per header name, in header order, holding
that field of every data line in file order. -/
def readCsv (f : CsvFile) : Except String DataFrame :=
  if f.header = [] then .error "EmptyDataError: no columns to parse"
  else if f.dataLines.all (fun r => r.length = f.header.length) then
    .ok ⟨f.header.enum.map
      (fun c => (c.2, f.dataLines.map (fun r => PVal.finite (r.getD c.1 0))))⟩
  else .error "ParserError: field count mismatch"

/-- The three column names appended by the derived-column computation. -/
def derivedNames : List String :=
  ["Sequential Relative", "Parallel Relative", "Optimized Relative"]

/-- Line 40 of `plots.py`: `df["Sequential Relative"] = 1`, the scalar 1
broadcast to one entry per row. -/
def seqRel (df : DataFrame) : DataFrame :=
  df.setCol "Sequential Relative" (List.replicate df.length (PVal.finite 1))

/-- Line 41 of `plots.py`:
`df["Parallel Relative"] = df["Sequential Time"] / df["Parallel Time"]`,
reading the operands in Python evaluation order; a missing operand column is
a fatal `KeyError`. -/
def parRel (df : DataFrame) : Except String DataFrame :=
  match df.getCol "Sequential Time" with
  | none => .error "KeyError: Sequential Time"
  | some st =>
    match df.getCol "Parallel Time" with
    | none => .error "KeyError: Parallel Time"
    | some pt => .ok (df.setCol "Parallel Relative" (List.zipWith PVal.div st pt))

/-- Line 42 of `plots.py`:
`df["Optimized Relative"] = df["Sequential Time"] / df["Optimized Parallel Time"]`,
reading the operands in Python evaluation order; a missing operand column is
a fatal `KeyError`. -/
def optRel (df : DataFrame) : Except String DataFrame :=
  match df.getCol "Sequential Time" with
  | none => .error "KeyError: Sequential Time"
  | some st =>
    match df.getCol "Optimized Parallel Time" with
    | none => .error "KeyError: Optimized Parallel Time"
    | some ot => .ok (df.setCol "Optimized Relative" (List.zipWith PVal.div st ot))

/-- The derived-column computation, lines 40-42 of `plots.py` in program
order. -/
def addDerived (df : DataFrame) : Except String DataFrame :=
  (parRel (seqRel df)).bind optRel

/-- Columns read by Plot 1 (lines 10-12), in first-access order. -/
def plot1Cols : List String :=
  ["Input Size", "Sequential Time", "Parallel Time", "Optimized Parallel Time"]

/-- Columns read by Plot 2 (lines 26-27), in first-access order. -/
def plot2Cols : List String :=
  ["Input Size", "Parallel Speedup", "Optimized Speedup"]

/-- Columns read by Plot 3 (lines 45-51), in first-access order. -/
def plot3Cols : List String :=
  ["Sequential Relative", "Parallel Relative", "Optimized Relative", "Input Size"]

/-- Check that every column a plot reads exists; the first missing one is the
fatal `KeyError` that aborts the script. -/
def requireCols (df : DataFrame) (names : List String) : Except String Unit :=
  match names.find? (fun n => (df.getCol n).isNone) with
  | some n => .error ("KeyError: " ++ n)
  | none => .ok ()

/-- An observable effect of the script: a chart image written to the named
file in the working directory at the given DPI (overwriting any existing file
of that name), or the derived-column mutation of the table. -/
inductive Event where
  | write : String → Nat → Event
  | derive : Event
deriving DecidableEq

/-- Output filename of Plot 1 (line 21). -/
def etcName : String := "execution_time_comparison.png"

/-- Output filename of Plot 2 (line 36). -/
def spdName : String := "speedup_comparison.png"

/-- Output filename of Plot 3 (line 55). -/
def relName : String := "relative_performance_comparison.png"

/-- Outcome of a run: the effects performed, in program order, and the fatal
error if the run aborted (`none` on success, exit status 0). -/
structure RunResult where
  events : List Event
  error : Option String
deriving DecidableEq

/-- The whole script, top to bottom: load the CSV; Plot 1 reads its columns
then writes `execution_time_comparison.png` at 300 DPI; Plot 2 reads its
columns then writes `speedup_comparison.png` at 300 DPI; the derived columns
are computed; Plot 3 reads its columns then writes
`relative_performance_comparison.png` at 300 DPI.  Any failure is fatal and
stops the run with the effects performed so far. -/
def runScript (f : CsvFile) : RunResult :=
  match readCsv f with
  | .error e => ⟨[], some e⟩
  | .ok df =>
    match requireCols df plot1Cols with
    | .error e => ⟨[], some e⟩
    | .ok _ =>
      match requireCols df plot2Cols with
      | .error e => ⟨[Event.write etcName 300], some e⟩
      | .ok _ =>
        match addDerived df with
        | .error e => ⟨[Event.write etcName 300, Event.write spdName 300], some e⟩
        | .ok df2 =>
          match requireCols df2 plot3Cols with
          | .error e =>
              ⟨[Event.write etcName 300, Event.write spdName 300, Event.derive],
               some e⟩
          | .ok _ =>
              ⟨[Event.write etcName 300, Event.write spdName 300, Event.derive,
                Event.write relName 300], none⟩

/-- Loading followed by the derived-column computation: the full numeric
pipeline of the script (everything except chart rendering). -/
def loadAndDerive (f : CsvFile) : Except String DataFrame :=
  (readCsv f).bind addDerived

/-- The six columns the input file provides and the charts read. -/
def loadedNames : List String :=
  ["Input Size", "Sequential Time", "Parallel Time", "Optimized Parallel Time",
   "Parallel Speedup", "Optimized Speedup"]

/-- Reading back the column just assigned gives the assigned series. -/
theorem getColAux_setColAux_self (cs : List (String × List PVal)) (n : String)
    (v : List PVal) : getColAux (setColAux cs n v) n = some v := by
  induction cs with
  | nil => simp [setColAux, getColAux]
  | cons c cs ih =>
    by_cases h : c.1 = n
    · simp [setColAux, getColAux, h]
    · simp [setColAux, getColAux, h, ih]

/-- Assigning one column leaves every other column unchanged. -/
theorem getColAux_setColAux_ne (cs : List (String × List PVal)) (n m : String)
    (v : List PVal) (hmn : m ≠ n) :
    getColAux (setColAux cs n v) m = getColAux cs m := by
  have hnm : ¬(n = m) := fun h => hmn h.symm
  induction cs with
  | nil => simp only [setColAux, getColAux, if_neg hnm]
  | cons c cs ih =>
    by_cases h : c.1 = n
    · have hcm : ¬(c.1 = m) := by rw [h]; exact hnm
      simp only [setColAux, if_pos h, getColAux, if_neg hnm, if_neg hcm]
    · by_cases h2 : c.1 = m
      · simp only [setColAux, if_neg h, getColAux, if_pos h2]
      · simp only [setColAux, if_neg h, getColAux, if_neg h2, ih]

/-- A successful column lookup returns a column present in the table. -/
theorem getColAux_mem {cs : List (String × List PVal)} {n : String}
    {v : List PVal} (h : getColAux cs n = some v) : (n, v) ∈ cs := by
  induction cs with
  | nil => simp [getColAux] at h
  | cons c cs ih =>
    by_cases hc : c.1 = n
    · simp [getColAux, hc] at h
      have hceq : c = (n, v) := by cases c; simp_all
      rw [hceq]
      exact List.mem_cons_self _ _
    · simp [getColAux, hc] at h
      exact List.mem_cons_of_mem _ (ih h)

/-- Looking up a name absent from the table fails. -/
theorem getColAux_eq_none {cs : List (String × List PVal)} {n : String}
    (h : n ∉ cs.map Prod.fst) : getColAux cs n = none := by
  induction cs with
  | nil => rfl
  | cons c cs ih =>
    rw [List.map_cons, List.mem_cons] at h
    push_neg at h
    simp only [getColAux]
    rw [if_neg (fun he => h.1 he.symm)]
    exact ih h.2

/-- Every entry of the table after an assignment is the assigned pair or an
original entry. -/
theorem mem_setColAux {cs : List (String × List PVal)} {n : String}
    {v : List PVal} {p : String × List PVal} (h : p ∈ setColAux cs n v) :
    p = (n, v) ∨ p ∈ cs := by
  induction cs with
  | nil => simpa [setColAux] using h
  | cons c cs ih =>
    by_cases hc : c.1 = n
    · simp [setColAux, hc] at h
      rcases h with h | h
      · exact Or.inl h
      · exact Or.inr (List.mem_cons_of_mem _ h)
    · simp [setColAux, hc] at h
      rcases h with h | h
      · exact Or.inr (by simp [h])
      · rcases ih h with h2 | h2
        · exact Or.inl h2
        · exact Or.inr (List.mem_cons_of_mem _ h2)

/-- Assigning a column of the right length to a nonempty well-formed table
preserves well-formedness, the row count, and nonemptiness. -/
theorem wf_setCol {df : DataFrame} {n : String} {v : List PVal}
    (hwf : df.wf) (hv : v.length = df.length) (hne : df.cols ≠ []) :
    (df.setCol n v).wf ∧ (df.setCol n v).length = df.length ∧
      (df.setCol n v).cols ≠ [] := by
  obtain ⟨c, cs, hc⟩ : ∃ c cs, df.cols = c :: cs := by
    cases h : df.cols with
    | nil => exact absurd h hne
    | cons c cs => exact ⟨c, cs, rfl⟩
  have hlen : (df.setCol n v).length = df.length := by
    by_cases h : c.1 = n
    · simp [DataFrame.setCol, DataFrame.length, hc, setColAux, h, hv]
    · simp [DataFrame.setCol, DataFrame.length, hc, setColAux, h]
  refine ⟨?_, hlen, ?_⟩
  · intro p hp
    rw [hlen]
    rcases mem_setColAux hp with h | h
    · rw [h]; exact hv
    · exact hwf p h
  · simp only [DataFrame.setCol, hc, setColAux]
    split <;> simp

/-- Elementwise access of a zipped pair of columns. -/
theorem getElem?_zipWith (f : PVal → PVal → PVal) (as bs : List PVal) (i : Nat)
    (a b : PVal) (ha : as[i]? = some a) (hb : bs[i]? = some b) :
    (List.zipWith f as bs)[i]? = some (f a b) := by
  induction as generalizing bs i with
  | nil => simp at ha
  | cons x xs ih =>
    cases bs with
    | nil => simp at hb
    | cons y ys =>
      cases i with
      | zero =>
        simp at ha hb
        simp [ha, hb]
      | succ j =>
        simp at ha hb
        simpa using ih ys j ha hb

/-- When the three operand columns exist, the derived-column computation
succeeds and is exactly the three column assignments of lines 40-42. -/
theorem addDerived_ok {df : DataFrame} {st pt ot : List PVal}
    (hst : df.getCol "Sequential Time" = some st)
    (hpt : df.getCol "Parallel Time" = some pt)
    (hot : df.getCol "Optimized Parallel Time" = some ot) :
    addDerived df =
      .ok (((df.setCol "Sequential Relative"
              (List.replicate df.length (PVal.finite 1))).setCol
            "Parallel Relative" (List.zipWith PVal.div st pt)).setCol
          "Optimized Relative" (List.zipWith PVal.div st ot)) := by
  have e1 : getColAux (setColAux df.cols "Sequential Relative"
      (List.replicate df.length (PVal.finite 1))) "Sequential Time" = some st :=
    (getColAux_setColAux_ne _ _ _ _ (by decide)).trans hst
  have e2 : getColAux (setColAux df.cols "Sequential Relative"
      (List.replicate df.length (PVal.finite 1))) "Parallel Time" = some pt :=
    (getColAux_setColAux_ne _ _ _ _ (by decide)).trans hpt
  have e3 : getColAux (setColAux (setColAux df.cols "Sequential Relative"
      (List.replicate df.length (PVal.finite 1))) "Parallel Relative"
      (List.zipWith PVal.div st pt)) "Sequential Time" = some st :=
    (getColAux_setColAux_ne _ _ _ _ (by decide)).trans e1
  have e4 : getColAux (setColAux (setColAux df.cols "Sequential Relative"
      (List.replicate df.length (PVal.finite 1))) "Parallel Relative"
      (List.zipWith PVal.div st pt)) "Optimized Parallel Time" = some ot :=
    (getColAux_setColAux_ne _ _ _ _ (by decide)).trans
      ((getColAux_setColAux_ne _ _ _ _ (by decide)).trans hot)
  simp only [addDerived, seqRel, parRel, optRel, DataFrame.getCol,
    DataFrame.setCol, e1, e2, e3, e4, Except.bind]

/-- Core characterization of the derived columns, shared by several results
below: when the operand columns exist, the computation succeeds, `Sequential
Relative` is 1 in every row, and the two ratio columns are the elementwise
quotients of the operand columns. -/
theorem addDerived_columns_core {df : DataFrame} {st pt ot : List PVal}
    (hst : df.getCol "Sequential Time" = some st)
    (hpt : df.getCol "Parallel Time" = some pt)
    (hot : df.getCol "Optimized Parallel Time" = some ot) :
    ∃ df2, addDerived df = .ok df2 ∧
      (∃ sr, df2.getCol "Sequential Relative" = some sr ∧
        sr.length = df.length ∧ ∀ x ∈ sr, x = PVal.finite 1) ∧
      df2.getCol "Parallel Relative" = some (List.zipWith PVal.div st pt) ∧
      df2.getCol "Optimized Relative" = some (List.zipWith PVal.div st ot) ∧
      (∀ (i : Nat) (a b : PVal), st[i]? = some a → pt[i]? = some b →
        (List.zipWith PVal.div st pt)[i]? = some (PVal.div a b)) ∧
      (∀ (i : Nat) (a b : PVal), st[i]? = some a → ot[i]? = some b →
        (List.zipWith PVal.div st ot)[i]? = some (PVal.div a b)) := by
  refine ⟨_, addDerived_ok hst hpt hot, ?_, ?_, ?_, ?_, ?_⟩
  · refine ⟨List.replicate df.length (PVal.finite 1), ?_, by simp, ?_⟩
    · show getColAux (setColAux (setColAux (setColAux _ _ _) _ _) _ _) _ = _
      rw [getColAux_setColAux_ne _ _ _ _ (by decide),
        getColAux_setColAux_ne _ _ _ _ (by decide)]
      exact getColAux_setColAux_self _ _ _
    · intro x hx
      exact List.eq_of_mem_replicate hx
  · show getColAux (setColAux (setColAux (setColAux _ _ _) _ _) _ _) _ = _
    rw [getColAux_setColAux_ne _ _ _ _ (by decide)]
    exact getColAux_setColAux_self _ _ _
  · exact getColAux_setColAux_self _ _ _
  · intro i a b ha hb
    exact getElem?_zipWith _ _ _ _ _ _ ha hb
  · intro i a b ha hb
    exact getElem?_zipWith _ _ _ _ _ _ ha hb

/-- C1: for every row of the loaded Performance Table (any table having the
three operand columns), the derived-column computation sets `Sequential
Relative` to 1 in every row, `Parallel Relative` to the elementwise quotient
of `Sequential Time` by `Parallel Time`, and `Optimized Relative` to the
elementwise quotient of `Sequential Time` by `Optimized Parallel Time`. -/
theorem addDerived_relative_columns {df : DataFrame} {st pt ot : List PVal}
    (hst : df.getCol "Sequential Time" = some st)
    (hpt : df.getCol "Parallel Time" = some pt)
    (hot : df.getCol "Optimized Parallel Time" = some ot) :
    ∃ df2, addDerived df = .ok df2 ∧
      (∃ sr, df2.getCol "Sequential Relative" = some sr ∧
        sr.length = df.length ∧ ∀ x ∈ sr, x = PVal.finite 1) ∧
      df2.getCol "Parallel Relative" = some (List.zipWith PVal.div st pt) ∧
      df2.getCol "Optimized Relative" = some (List.zipWith PVal.div st ot) ∧
      (∀ (i : Nat) (a b : PVal), st[i]? = some a → pt[i]? = some b →
        (List.zipWith PVal.div st pt)[i]? = some (PVal.div a b)) ∧
      (∀ (i : Nat) (a b : PVal), st[i]? = some a → ot[i]? = some b →
        (List.zipWith PVal.div st ot)[i]? = some (PVal.div a b)) :=
  addDerived_columns_core hst hpt hot

/-- DataFrame-level: reading back the column just assigned. -/
theorem getCol_setCol_self (df : DataFrame) (n : String) (v : List PVal) :
    (df.setCol n v).getCol n = some v :=
  getColAux_setColAux_self df.cols n v

/-- DataFrame-level: assignment leaves other columns unchanged. -/
theorem getCol_setCol_ne (df : DataFrame) (n m : String) (v : List PVal)
    (hmn : m ≠ n) : (df.setCol n v).getCol m = df.getCol m :=
  getColAux_setColAux_ne df.cols n m v hmn

/-- Inversion: a successful derived-column computation means the three operand
columns were present, and the result is exactly the three assignments. -/
theorem addDerived_shape {df df2 : DataFrame} (h : addDerived df = .ok df2) :
    ∃ st pt ot, df.getCol "Sequential Time" = some st ∧
      df.getCol "Parallel Time" = some pt ∧
      df.getCol "Optimized Parallel Time" = some ot ∧
      df2 = ((seqRel df).setCol "Parallel Relative"
          (List.zipWith PVal.div st pt)).setCol
        "Optimized Relative" (List.zipWith PVal.div st ot) := by
  unfold addDerived at h
  cases hp : parRel (seqRel df) with
  | error e => rw [hp] at h; simp [Except.bind] at h
  | ok dfm =>
    rw [hp] at h
    simp only [Except.bind] at h
    unfold parRel at hp
    cases h1 : (seqRel df).getCol "Sequential Time" with
    | none => rw [h1] at hp; simp at hp
    | some st =>
      rw [h1] at hp
      cases h2 : (seqRel df).getCol "Parallel Time" with
      | none => rw [h2] at hp; simp at hp
      | some pt =>
        rw [h2] at hp
        simp only [Except.ok.injEq] at hp
        subst hp
        unfold optRel at h
        cases h3 : ((seqRel df).setCol "Parallel Relative"
            (List.zipWith PVal.div st pt)).getCol "Sequential Time" with
        | none => rw [h3] at h; simp at h
        | some st2 =>
          rw [h3] at h
          cases h4 : ((seqRel df).setCol "Parallel Relative"
              (List.zipWith PVal.div st pt)).getCol "Optimized Parallel Time" with
          | none => rw [h4] at h; simp at h
          | some ot =>
            rw [h4] at h
            simp only [Except.ok.injEq] at h
            have hst : df.getCol "Sequential Time" = some st :=
              (getCol_setCol_ne df _ _ _ (by decide)).symm.trans h1
            have hpt : df.getCol "Parallel Time" = some pt :=
              (getCol_setCol_ne df _ _ _ (by decide)).symm.trans h2
            have hst2 : st2 = st := by
              rw [getCol_setCol_ne _ _ _ _ (by decide), h1] at h3
              exact (Option.some.injEq _ _ ▸ h3).symm
            have hot : df.getCol "Optimized Parallel Time" = some ot := by
              rw [getCol_setCol_ne _ _ _ _ (by decide)] at h4
              exact ((getCol_setCol_ne df _ _ _ (by decide)).symm.trans h4)
            exact ⟨st, pt, ot, hst, hpt, hot, by rw [← h, hst2]⟩

/-- The snd projection of an enumeration is the original list. -/
theorem enumFrom_map_snd {α : Type} : ∀ (n : Nat) (l : List α),
    (List.enumFrom n l).map Prod.snd = l
  | _, [] => rfl
  | n, _ :: l => by
    simp only [List.enumFrom, List.map_cons]
    rw [enumFrom_map_snd (n + 1) l]

/-- Loading keeps the header: the table has exactly the header names as its
column names, in header order. -/
theorem readCsv_names {f : CsvFile} {df : DataFrame} (h : readCsv f = .ok df) :
    df.cols.map Prod.fst = f.header := by
  by_cases hH : f.header = []
  · simp only [readCsv, if_pos hH] at h
    exact Except.noConfusion h
  · by_cases hA : f.dataLines.all (fun r => r.length = f.header.length)
    · simp only [readCsv, if_neg hH, if_pos hA, Except.ok.injEq] at h
      subst h
      simp only [List.map_map]
      have hc : (Prod.fst ∘ fun c : Nat × String =>
          (c.2, f.dataLines.map (fun r => PVal.finite (r.getD c.1 0)))) =
          Prod.snd := rfl
      rw [hc, List.enum]
      exact enumFrom_map_snd 0 f.header
    · simp only [readCsv, if_neg hH, if_neg hA] at h
      exact Except.noConfusion h

/-- Loading yields a well-formed nonempty table with one row per data line. -/
theorem readCsv_wf {f : CsvFile} {df : DataFrame} (h : readCsv f = .ok df) :
    df.wf ∧ df.length = f.dataLines.length ∧ df.cols ≠ [] := by
  by_cases hH : f.header = []
  · simp only [readCsv, if_pos hH] at h
    exact Except.noConfusion h
  · by_cases hA : f.dataLines.all (fun r => r.length = f.header.length)
    · simp only [readCsv, if_neg hH, if_pos hA, Except.ok.injEq] at h
      subst h
      obtain ⟨h0, t, hh⟩ : ∃ h0 t, f.header = h0 :: t := by
        cases hht : f.header with
        | nil => exact absurd hht hH
        | cons a l => exact ⟨a, l, rfl⟩
      have hlen : DataFrame.length ⟨f.header.enum.map (fun c =>
          (c.2, f.dataLines.map (fun r => PVal.finite (r.getD c.1 0))))⟩ =
          f.dataLines.length := by
        rw [hh]
        simp [DataFrame.length, List.enum, List.enumFrom]
      refine ⟨?_, hlen, ?_⟩
      · intro p hp
        rw [hlen]
        rcases List.mem_map.mp hp with ⟨c, hc, rfl⟩
        simp
      · rw [hh]
        simp [List.enum, List.enumFrom]
    · simp only [readCsv, if_neg hH, if_neg hA] at h
      exact Except.noConfusion h

/-- C2: for a loaded table, appending the three derived columns preserves the
table invariant: every value column of the result has one entry per row, the
row count equals the number of data lines of the input file, and every
passthrough column keeps its value sequence verbatim (rows are never
reordered or filtered). -/
theorem addDerived_preserves_invariant {f : CsvFile} {df df2 : DataFrame}
    (hload : readCsv f = .ok df) (hder : addDerived df = .ok df2) :
    df2.wf ∧ df2.length = f.dataLines.length ∧
      ∀ n vs, n ∉ derivedNames → df.getCol n = some vs →
        df2.getCol n = some vs := by
  obtain ⟨hwf, hlen, hcne⟩ := readCsv_wf hload
  obtain ⟨st, pt, ot, hst, hpt, hot, hshape⟩ := addDerived_shape hder
  have hstl : st.length = df.length := hwf _ (getColAux_mem hst)
  have hptl : pt.length = df.length := hwf _ (getColAux_mem hpt)
  have hotl : ot.length = df.length := hwf _ (getColAux_mem hot)
  have w1 : (seqRel df).wf ∧ (seqRel df).length = df.length ∧
      (seqRel df).cols ≠ [] :=
    wf_setCol hwf (by simp) hcne
  have hz1 : (List.zipWith PVal.div st pt).length = (seqRel df).length := by
    rw [List.length_zipWith, hstl, hptl, w1.2.1]
    exact Nat.min_self _
  have w2 : ((seqRel df).setCol "Parallel Relative"
        (List.zipWith PVal.div st pt)).wf ∧
      ((seqRel df).setCol "Parallel Relative"
        (List.zipWith PVal.div st pt)).length = (seqRel df).length ∧
      ((seqRel df).setCol "Parallel Relative"
        (List.zipWith PVal.div st pt)).cols ≠ [] :=
    wf_setCol w1.1 hz1 w1.2.2
  have hz2 : (List.zipWith PVal.div st ot).length =
      ((seqRel df).setCol "Parallel Relative"
        (List.zipWith PVal.div st pt)).length := by
    rw [List.length_zipWith, hstl, hotl, w2.2.1, w1.2.1]
    exact Nat.min_self _
  have w3 : (((seqRel df).setCol "Parallel Relative"
        (List.zipWith PVal.div st pt)).setCol "Optimized Relative"
        (List.zipWith PVal.div st ot)).wf ∧
      (((seqRel df).setCol "Parallel Relative"
        (List.zipWith PVal.div st pt)).setCol "Optimized Relative"
        (List.zipWith PVal.div st ot)).length =
        ((seqRel df).setCol "Parallel Relative"
          (List.zipWith PVal.div st pt)).length ∧
      (((seqRel df).setCol "Parallel Relative"
        (List.zipWith PVal.div st pt)).setCol "Optimized Relative"
        (List.zipWith PVal.div st ot)).cols ≠ [] :=
    wf_setCol w2.1 hz2 w2.2.2
  subst hshape
  refine ⟨w3.1, ?_, ?_⟩
  · rw [w3.2.1, w2.2.1, w1.2.1]
    exact hlen
  · intro n vs hnd hv
    simp only [derivedNames, List.mem_cons, List.not_mem_nil, or_false] at hnd
    push_neg at hnd
    rw [getCol_setCol_ne _ _ _ _ hnd.2.2, getCol_setCol_ne _ _ _ _ hnd.2.1,
      seqRel, getCol_setCol_ne _ _ _ _ hnd.1]
    exact hv

/-- The sample input file of the spec: the six-column header and the row
`Input Size=100, Sequential Time=10, Parallel Time=2, Optimized Parallel
Time=1` with the two externally supplied speedup columns. -/
def file7 : CsvFile :=
  ⟨["Input Size", "Sequential Time", "Parallel Time", "Optimized Parallel Time",
    "Parallel Speedup", "Optimized Speedup"],
   [[100, 10, 2, 1, 5, 10]]⟩

/-- The table loaded from `file7`. -/
def df7 : DataFrame :=
  ⟨[("Input Size", [PVal.finite 100]), ("Sequential Time", [PVal.finite 10]),
    ("Parallel Time", [PVal.finite 2]),
    ("Optimized Parallel Time", [PVal.finite 1]),
    ("Parallel Speedup", [PVal.finite 5]),
    ("Optimized Speedup", [PVal.finite 10])]⟩

/-- The table obtained from `df7` by the derived-column computation. -/
def df7d : DataFrame :=
  ⟨[("Input Size", [PVal.finite 100]), ("Sequential Time", [PVal.finite 10]),
    ("Parallel Time", [PVal.finite 2]),
    ("Optimized Parallel Time", [PVal.finite 1]),
    ("Parallel Speedup", [PVal.finite 5]),
    ("Optimized Speedup", [PVal.finite 10]),
    ("Sequential Relative", [PVal.finite 1]),
    ("Parallel Relative", [PVal.div (PVal.finite 10) (PVal.finite 2)]),
    ("Optimized Relative", [PVal.div (PVal.finite 10) (PVal.finite 1)])]⟩

/-- Witness for C1 at the concrete table `df7`. -/
theorem addDerived_relative_columns_witness :
    (((addDerived df7).toOption.bind fun d => d.getCol "Parallel Relative") =
      some [PVal.div (PVal.finite 10) (PVal.finite 2)]) ∧
    (((addDerived df7).toOption.bind fun d => d.getCol "Optimized Relative") =
      some [PVal.div (PVal.finite 10) (PVal.finite 1)]) := by
  obtain ⟨df2, hok, hsr, hpr, hor, hez1, hez2⟩ :=
    addDerived_relative_columns
      (rfl : df7.getCol "Sequential Time" = some [PVal.finite 10])
      (rfl : df7.getCol "Parallel Time" = some [PVal.finite 2])
      (rfl : df7.getCol "Optimized Parallel Time" = some [PVal.finite 1])
  rw [hok]
  constructor
  · simp only [Except.toOption, Option.some_bind]
    exact hpr
  · simp only [Except.toOption, Option.some_bind]
    exact hor

/-- Witness for C2 at the concrete file `file7`. -/
theorem addDerived_preserves_invariant_witness :
    df7d.wf ∧ df7d.length = file7.dataLines.length ∧
      df7d.getCol "Input Size" = some [PVal.finite 100] := by
  obtain ⟨hwf, hlen, hframe⟩ :=
    addDerived_preserves_invariant (rfl : readCsv file7 = .ok df7)
      (rfl : addDerived df7 = .ok df7d)
  exact ⟨hwf, hlen, hframe "Input Size" [PVal.finite 100] (by decide) rfl⟩

/-- A name outside the header is absent from the loaded table. -/
theorem readCsv_getCol_none {f : CsvFile} {df : DataFrame} {n : String}
    (h : readCsv f = .ok df) (hn : n ∉ f.header) : df.getCol n = none :=
  getColAux_eq_none (by rw [readCsv_names h]; exact hn)

/-- If some required column is missing, the column check raises a
`KeyError`. -/
theorem requireCols_error {df : DataFrame} {names : List String} {n : String}
    (hn : n ∈ names) (h : df.getCol n = none) :
    ∃ m, requireCols df names = .error ("KeyError: " ++ m) := by
  have hs : (names.find? (fun x => (df.getCol x).isNone)).isSome := by
    rw [List.find?_isSome]
    exact ⟨n, hn, by simp [h]⟩
  obtain ⟨m, hm⟩ := Option.isSome_iff_exists.mp hs
  exact ⟨m, by simp [requireCols, hm]⟩

/-- C3: on any input file whose header lacks the `Optimized Parallel Time`
column, the script terminates with a fatal error having written no chart file
at all — in particular not `execution_time_comparison.png`, whose chart
reads that column before its write. -/
theorem missing_optimized_column_fails_early {f : CsvFile}
    (hn : "Optimized Parallel Time" ∉ f.header) :
    (runScript f).error.isSome = true ∧ (runScript f).events = [] := by
  unfold runScript
  cases hr : readCsv f with
  | error e => exact ⟨rfl, rfl⟩
  | ok df =>
    have hcol : df.getCol "Optimized Parallel Time" = none :=
      readCsv_getCol_none hr hn
    obtain ⟨m, hm⟩ := requireCols_error
      (by decide : "Optimized Parallel Time" ∈ plot1Cols) hcol
    simp [hm]

/-- An input file whose header lacks `Optimized Parallel Time`. -/
def fileNoOpt : CsvFile :=
  ⟨["Input Size", "Sequential Time", "Parallel Time", "Parallel Speedup",
    "Optimized Speedup"],
   [[100, 10, 2, 5, 10]]⟩

/-- Witness for C3 at the concrete file `fileNoOpt`. -/
theorem missing_optimized_column_fails_early_witness :
    (runScript fileNoOpt).error.isSome = true ∧
      (runScript fileNoOpt).events = [] :=
  missing_optimized_column_fails_early (by decide)

/-- An input file whose header lacks `Parallel Speedup` but has everything
Plot 1 needs. -/
def fileNoSpd : CsvFile :=
  ⟨["Input Size", "Sequential Time", "Parallel Time",
    "Optimized Parallel Time", "Optimized Speedup"],
   [[100, 10, 2, 1, 10]]⟩

/-- C4: failure is not atomic — on the concrete input `fileNoSpd`, whose
header lacks the `Parallel Speedup` column, the script terminates with a
fatal `KeyError` after `execution_time_comparison.png` has already been
written. -/
theorem partial_output_after_first_chart :
    (runScript fileNoSpd).events = [Event.write etcName 300] ∧
      (runScript fileNoSpd).error = some "KeyError: Parallel Speedup" := by
  decide

/-- On a successful run the script's full effect trace, in program order. -/
theorem runScript_success {f : CsvFile} (h : (runScript f).error = none) :
    (runScript f).events =
      [Event.write etcName 300, Event.write spdName 300, Event.derive,
       Event.write relName 300] := by
  unfold runScript at h ⊢
  cases hr : readCsv f with
  | error e => rw [hr] at h; exact Option.noConfusion h
  | ok df =>
    simp only [hr] at h
    cases h1 : requireCols df plot1Cols with
    | error e => rw [h1] at h; exact Option.noConfusion h
    | ok u =>
      simp only [h1] at h
      cases h2 : requireCols df plot2Cols with
      | error e => rw [h2] at h; exact Option.noConfusion h
      | ok u2 =>
        simp only [h2] at h
        cases h3 : addDerived df with
        | error e => rw [h3] at h; exact Option.noConfusion h
        | ok df2 =>
          simp only [h3] at h
          cases h4 : requireCols df2 plot3Cols with
          | error e => rw [h4] at h; exact Option.noConfusion h
          | ok u3 => simp only [hr, h1, h2, h3, h4]

/-- C8: every successful run writes exactly three chart images, at 300 DPI,
with the fixed names `execution_time_comparison.png`,
`speedup_comparison.png`, `relative_performance_comparison.png`, in that
order (each to the working directory, overwriting any file of that name). -/
theorem success_writes_three_pngs {f : CsvFile}
    (h : (runScript f).error = none) :
    ((runScript f).events.filterMap fun e =>
      match e with
      | .write fname dpi => some (fname, dpi)
      | .derive => none) =
      [(etcName, 300), (spdName, 300), (relName, 300)] := by
  rw [runScript_success h]
  rfl

/-- Witness for C8 at the concrete file `file7`. -/
theorem success_writes_three_pngs_witness :
    ((runScript file7).events.filterMap fun e =>
      match e with
      | .write fname dpi => some (fname, dpi)
      | .derive => none) =
      [(etcName, 300), (spdName, 300), (relName, 300)] :=
  success_writes_three_pngs (by decide)

/-- C9: the three chart renders execute strictly in program order — the
execution-time chart write, then the speedup chart write, then the
relative-performance chart write — and the derived-column computation happens
after the first two writes and before the third. -/
theorem renders_strictly_ordered {f : CsvFile}
    (h : (runScript f).error = none) :
    (runScript f).events =
      [Event.write etcName 300, Event.write spdName 300, Event.derive,
       Event.write relName 300] :=
  runScript_success h

/-- Witness for C9 at the concrete file `file7`. -/
theorem renders_strictly_ordered_witness :
    (runScript file7).events =
      [Event.write etcName 300, Event.write spdName 300, Event.derive,
       Event.write relName 300] :=
  renders_strictly_ordered (by decide)

/-- Dividing a finite value by finite zero yields a non-finite value
(NaN for 0/0, a signed infinity otherwise) and never an error. -/
theorem div_finite_zero_not_finite (a : ℚ) :
    (PVal.div (PVal.finite a) (PVal.finite 0)).isFinite = false := by
  simp only [PVal.div, if_pos rfl]
  by_cases h : a = 0
  · simp [h, PVal.isFinite]
  · rw [if_neg h]
    by_cases h2 : 0 < a
    · simp [h2, PVal.isFinite]
    · simp [h2, PVal.isFinite]

/-- C5: the derived-column computation performs no division-by-zero guard:
on any table (operand columns present) with a finite `Sequential Time` at row
`i`, a zero `Parallel Time` or zero `Optimized Parallel Time` at row `i`
neither raises an error nor fails fast — the computation still succeeds and
the corresponding Relative entry at row `i` is a non-finite
(infinity/NaN-equivalent) value. -/
theorem division_by_zero_unguarded {df : DataFrame} {st pt ot : List PVal}
    {i : Nat} {a : ℚ}
    (hst : df.getCol "Sequential Time" = some st)
    (hpt : df.getCol "Parallel Time" = some pt)
    (hot : df.getCol "Optimized Parallel Time" = some ot)
    (hsti : st[i]? = some (PVal.finite a)) :
    ∃ df2, addDerived df = .ok df2 ∧
      (pt[i]? = some (PVal.finite 0) →
        ∃ pr x, df2.getCol "Parallel Relative" = some pr ∧
          pr[i]? = some x ∧ x.isFinite = false) ∧
      (ot[i]? = some (PVal.finite 0) →
        ∃ orl x, df2.getCol "Optimized Relative" = some orl ∧
          orl[i]? = some x ∧ x.isFinite = false) := by
  obtain ⟨df2, hok, hsr, hpr, hor, hez1, hez2⟩ :=
    addDerived_columns_core hst hpt hot
  refine ⟨df2, hok, ?_, ?_⟩
  · intro hz
    exact ⟨_, _, hpr, hez1 i _ _ hsti hz, div_finite_zero_not_finite a⟩
  · intro hz
    exact ⟨_, _, hor, hez2 i _ _ hsti hz, div_finite_zero_not_finite a⟩

/-- A table with a zero `Parallel Time` and a zero `Optimized Parallel
Time`. -/
def dfZero : DataFrame :=
  ⟨[("Sequential Time", [PVal.finite 10]), ("Parallel Time", [PVal.finite 0]),
    ("Optimized Parallel Time", [PVal.finite 0])]⟩

/-- Witness for C5 at the concrete table `dfZero`. -/
theorem division_by_zero_unguarded_witness :
    (((addDerived dfZero).toOption.bind fun d =>
      (d.getCol "Parallel Relative").bind fun pr => pr[0]?.map PVal.isFinite) =
      some false) ∧
    (((addDerived dfZero).toOption.bind fun d =>
      (d.getCol "Optimized Relative").bind fun orl =>
        orl[0]?.map PVal.isFinite) = some false) := by
  obtain ⟨df2, hok, hp, ho⟩ :=
    division_by_zero_unguarded
      (rfl : dfZero.getCol "Sequential Time" = some [PVal.finite 10])
      (rfl : dfZero.getCol "Parallel Time" = some [PVal.finite 0])
      (rfl : dfZero.getCol "Optimized Parallel Time" = some [PVal.finite 0])
      (rfl : [PVal.finite 10][0]? = some (PVal.finite 10))
  obtain ⟨pr, x, hpr, hxi, hxf⟩ := hp rfl
  obtain ⟨orl, y, horl, hyi, hyf⟩ := ho rfl
  rw [hok]
  constructor
  · simp only [Except.toOption, Option.some_bind]
    rw [hpr]
    simp only [Option.some_bind]
    rw [hxi]
    simp [hxf]
  · simp only [Except.toOption, Option.some_bind]
    rw [horl]
    simp only [Option.some_bind]
    rw [hyi]
    simp [hyf]

/-- C6: the numeric pipeline is deterministic — any two runs of loading plus
the derived-column computation on the same input file yield identical
results, hence identical loaded columns and derived Relative series. -/
theorem pipeline_deterministic (f : CsvFile)
    (r1 r2 : Except String DataFrame)
    (h1 : loadAndDerive f = r1) (h2 : loadAndDerive f = r2) : r1 = r2 :=
  h1.symm.trans h2

/-- Witness for C6 at the concrete file `file7`: two runs on `file7` agree. -/
theorem pipeline_deterministic_witness :
    loadAndDerive file7 = loadAndDerive file7 :=
  pipeline_deterministic file7 (loadAndDerive file7) (loadAndDerive file7)
    rfl rfl

/-- C7: on the input row `Input Size=100, Sequential Time=10, Parallel
Time=2, Optimized Parallel Time=1`, the derived columns hold `Parallel
Relative = 5` and `Optimized Relative = 10`. -/
theorem sample_row_relative_values :
    ((loadAndDerive file7).toOption.map fun d =>
      (d.getCol "Parallel Relative", d.getCol "Optimized Relative")) =
      some (some [PVal.finite 5], some [PVal.finite 10]) := by
  simp [loadAndDerive, readCsv, addDerived, seqRel, parRel, optRel,
        DataFrame.setCol, DataFrame.getCol, DataFrame.length, setColAux,
        getColAux, List.enum, List.enumFrom, file7, PVal.div,
        Except.toOption, Except.bind]
  norm_num

/-- C10: the derived-column computation only appends — every one of the six
columns loaded from the input file keeps exactly its loaded value sequence,
so the series drawn by charts 1 and 2 are untouched by the mutation. -/
theorem derived_append_frame {df df2 : DataFrame}
    (h : addDerived df = .ok df2) :
    ∀ n ∈ loadedNames, df2.getCol n = df.getCol n := by
  obtain ⟨st, pt, ot, hst, hpt, hot, hshape⟩ := addDerived_shape h
  subst hshape
  intro n hn
  fin_cases hn <;>
    rw [getCol_setCol_ne _ _ _ _ (by decide),
      getCol_setCol_ne _ _ _ _ (by decide), seqRel,
      getCol_setCol_ne _ _ _ _ (by decide)]

/-- Witness for C10 at the concrete table `df7`. -/
theorem derived_append_frame_witness :
    df7d.getCol "Sequential Time" = df7.getCol "Sequential Time" :=
  derived_append_frame (rfl : addDerived df7 = .ok df7d) "Sequential Time"
    (by decide)
